import Mathlib

/-
Verification development for the pi-irc-messenger extension.

The embedding models, directly from the source:
  * the chat/membership debounce buffers (`MessageBuffer`, `EventBuffer`,
    `recordMsg`, `chatRun`, the keyed maps and their flush operations);
  * the flush-time routing (`flushBuffer`): DM versus channel message,
    mention detection via a substring test mirroring String.prototype.includes;
  * the connect handler (`handleConnect`) as a function of the extension
    state, the parameters and the outcome of the one-shot
    registered/error/timeout race, returning the tool result, the new state
    and the trace of transport I/O events;
  * the nick-change and close event handlers;
  * profile resolution (`getResolvedProfile`).
Timers are modelled as absolute deadlines: setTimeout(f, d) at time `now`
becomes the deadline `now + d`, and clearTimeout followed by a fresh
setTimeout becomes overwriting the deadline.
-/

-- ===========================================================================
-- Substring containment (model of JavaScript String.prototype.includes)
-- ===========================================================================

def listStartsWith : List Char → List Char → Bool
  | [], _ => true
  | _ :: _, [] => false
  | a :: as, b :: bs => a == b && listStartsWith as bs

def containsSub : List Char → List Char → Bool
  | [], pat => pat.isEmpty
  | c :: rest, pat => listStartsWith pat (c :: rest) || containsSub rest pat

def containsSubstr (s pat : String) : Bool :=
  containsSub s.data pat.data

/-- `pat` occurs as a contiguous substring of `text`. -/
def ContainsSubstring (pat text : List Char) : Prop :=
  ∃ pre post, text = pre ++ pat ++ post

theorem listStartsWith_iff (pat text : List Char) :
    listStartsWith pat text = true ↔ ∃ rest, text = pat ++ rest := by
  induction pat generalizing text with
  | nil =>
    simp [listStartsWith]
  | cons a as ih =>
    cases text with
    | nil =>
      simp [listStartsWith]
    | cons b bs =>
      simp only [listStartsWith, Bool.and_eq_true, beq_iff_eq, ih, List.cons_append,
        List.cons.injEq]
      constructor
      · rintro ⟨hab, r, hr⟩
        exact ⟨r, hab.symm, hr⟩
      · rintro ⟨r, hab, hr⟩
        exact ⟨hab.symm, r, hr⟩

theorem containsSub_iff (text pat : List Char) :
    containsSub text pat = true ↔ ContainsSubstring pat text := by
  induction text with
  | nil =>
    simp only [containsSub, List.isEmpty_iff, ContainsSubstring]
    constructor
    · rintro rfl
      exact ⟨[], [], rfl⟩
    · rintro ⟨pre, post, h⟩
      rcases pre with _ | ⟨p, ps⟩ <;> simp_all
  | cons c rest ih =>
    simp only [containsSub, Bool.or_eq_true, listStartsWith_iff, ih, ContainsSubstring]
    constructor
    · rintro (⟨r, hr⟩ | ⟨pre, post, h⟩)
      · exact ⟨[], r, by simpa using hr⟩
      · exact ⟨c :: pre, post, by simp [h]⟩
    · rintro ⟨pre, post, h⟩
      cases pre with
      | nil =>
        left
        exact ⟨post, by simpa using h⟩
      | cons p ps =>
        right
        simp only [List.cons_append, List.cons.injEq] at h
        exact ⟨ps, post, h.2⟩

theorem containsSubstr_iff (s pat : String) :
    containsSubstr s pat = true ↔ ContainsSubstring pat.data s.data :=
  containsSub_iff s.data pat.data

-- ===========================================================================
-- Chat message debouncing and routing (messageBuffers / flushBuffer)
-- ===========================================================================

def MESSAGE_BUFFER_DELAY_MS : Nat := 1000

def EVENT_BUFFER_DELAY_MS : Nat := 2000

/-- The `MessageBuffer` record of the source (the `timer` field is modelled
separately as an absolute deadline alongside the buffer). -/
structure MessageBuffer where
  nick : String
  target : String
  messages : List String
deriving DecidableEq

/-- A delivery to the agent messaging API: `sendUserMessage(_, deliverAs:
steer)` or `sendMessage({customType, content}, {triggerTurn})`. -/
inductive Delivery where
  | steer (content : String)
  | context (customType : String) (content : String) (triggerTurn : Bool)
deriving DecidableEq

/-- The flush closure of the "message" handler: empty buffers are a no-op;
a DM (target = own nick) is steered, a channel message is sent as context
with `triggerTurn` iff the combined text includes "@" ++ ourNick. -/
def flushBuffer (ourNick : String) (b : MessageBuffer) : Option Delivery :=
  if b.messages = [] then none
  else
    let combined := String.intercalate "\n" b.messages
    if b.target = ourNick then
      some (Delivery.steer ("IRC DM from " ++ b.nick ++ ": " ++ combined))
    else
      some (Delivery.context "irc_channel_message"
        ("[" ++ b.target ++ "] " ++ b.nick ++ ": " ++ combined)
        (containsSubstr combined ("@" ++ ourNick)))

/-- One `record` for a single key: create the buffer if absent, push the
payload, cancel the pending timer and arm a fresh one for
`now + MESSAGE_BUFFER_DELAY_MS`. -/
def recordMsg (now : Nat) (nick target msg : String)
    (s : Option (MessageBuffer × Nat)) : Option (MessageBuffer × Nat) :=
  match s with
  | none =>
      some ({ nick := nick, target := target, messages := [msg] },
        now + MESSAGE_BUFFER_DELAY_MS)
  | some (b, _) =>
      some ({ b with messages := b.messages ++ [msg] },
        now + MESSAGE_BUFFER_DELAY_MS)

/-- Timed run of one debounce key: each event is a (time, payload) record;
a pending timer whose deadline has been reached fires before the next
record is processed, and any pending timer fires after the last event. -/
def chatRun (ourNick nick target : String) :
    List (Nat × String) → Option (MessageBuffer × Nat) → List Delivery
  | [], none => []
  | [], some (b, _) => (flushBuffer ourNick b).toList
  | (t, m) :: rest, none =>
      chatRun ourNick nick target rest (recordMsg t nick target m none)
  | (t, m) :: rest, some (b, dl) =>
      if dl ≤ t then
        (flushBuffer ourNick b).toList ++
          chatRun ourNick nick target rest (recordMsg t nick target m none)
      else
        chatRun ourNick nick target rest (recordMsg t nick target m (some (b, dl)))

/-- Times are nondecreasing and each event lands strictly before the
deadline armed by the previous one. -/
def chainOK (prev dl : Nat) : List (Nat × String) → Bool
  | [] => true
  | (t, _) :: rest =>
      decide (prev ≤ t) && decide (t < dl) &&
        chainOK t (t + MESSAGE_BUFFER_DELAY_MS) rest

-- ===========================================================================
-- Keyed buffer maps (messageBuffers and eventBuffers)
-- ===========================================================================

/-- The `EventBuffer` record of the source (join/part notifications),
timer again modelled as an absolute deadline alongside the buffer. -/
structure EventBuffer where
  channel : String
  events : List String
deriving DecidableEq

/-- The key of messageBuffers: `target ++ ":" ++ nick`. -/
def chatKey (target nick : String) : String := target ++ ":" ++ nick

/-- The "message" handler's effect on the messageBuffers map: only the
entry for the event's own key is created/extended and re-armed. -/
def recordChatMap (now : Nat) (nick target msg : String)
    (m : String → Option (MessageBuffer × Nat)) :
    String → Option (MessageBuffer × Nat) :=
  fun k =>
    if k = chatKey target nick then
      recordMsg now nick target msg (m (chatKey target nick))
    else m k

/-- The timer firing for one chat key: an absent or empty buffer is a
no-op (the empty case returns early without deleting); otherwise the
buffer is flushed and its entry deleted. -/
def flushChatMap (ourNick key : String)
    (m : String → Option (MessageBuffer × Nat)) :
    List Delivery × (String → Option (MessageBuffer × Nat)) :=
  match m key with
  | none => ([], m)
  | some (b, _) =>
      if b.messages = [] then ([], m)
      else ((flushBuffer ourNick b).toList, fun k => if k = key then none else m k)

/-- Recording one membership line (joined/left) under its channel key,
arming the longer EVENT_BUFFER_DELAY_MS timer. -/
def recordEventMap (now : Nat) (channel line : String)
    (m : String → Option (EventBuffer × Nat)) :
    String → Option (EventBuffer × Nat) :=
  fun k =>
    if k = channel then
      match m channel with
      | none =>
          some ({ channel := channel, events := [line] },
            now + EVENT_BUFFER_DELAY_MS)
      | some (b, _) =>
          some ({ b with events := b.events ++ [line] },
            now + EVENT_BUFFER_DELAY_MS)
    else m k

/-- `flushEventBuffer` of the source: empty buffers return early without
deleting; otherwise one `irc_join_part` context message (never a turn
trigger) is sent and the entry deleted. -/
def flushEventMap (key : String)
    (m : String → Option (EventBuffer × Nat)) :
    List Delivery × (String → Option (EventBuffer × Nat)) :=
  match m key with
  | none => ([], m)
  | some (b, _) =>
      if b.events = [] then ([], m)
      else ([Delivery.context "irc_join_part" (String.intercalate "\n" b.events) false],
        fun k => if k = key then none else m k)

/-- The "join" handler for a foreign nick: buffer "<nick> joined <channel>". -/
def onJoinEvent (now : Nat) (evNick channel ourNick : String)
    (m : String → Option (EventBuffer × Nat)) :
    String → Option (EventBuffer × Nat) :=
  if evNick = ourNick then m
  else recordEventMap now channel (evNick ++ " joined " ++ channel) m

/-- The "part" handler for a foreign nick: buffer "<nick> left <channel>". -/
def onPartEvent (now : Nat) (evNick channel ourNick : String)
    (m : String → Option (EventBuffer × Nat)) :
    String → Option (EventBuffer × Nat) :=
  if evNick = ourNick then m
  else recordEventMap now channel (evNick ++ " left " ++ channel) m

-- ===========================================================================
-- Session state and the connect handler
-- ===========================================================================

/-- `IRCState` of src/types.ts. -/
structure IRCState where
  connected : Bool
  host : String
  port : Nat
  nick : String
  channels : List String
  profileName : Option String
deriving DecidableEq

/-- The extension's module-scope state: presence of the singleton
`ircClient` and the optional `currentState`. -/
structure ExtState where
  ircClient : Bool
  currentState : Option IRCState
deriving DecidableEq

/-- The parameters read by `handleConnect` (optional fields model absent
JavaScript properties). -/
structure ConnectParams where
  host : String
  port : Option Nat
  nickname : String
  channels : Option (List String)
deriving DecidableEq

/-- The first event to settle the connect promise: "registered", a
"socket error", or the 10s timeout. -/
inductive ConnectOutcome where
  | registered
  | socketError (msg : String)
  | timeout
deriving DecidableEq

/-- Transport I/O performed by `handleConnect`: client construction, the
`connect` call, and `quit` during rollback. -/
inductive IOEvent where
  | newClient
  | connectCall (host : String) (port : Nat) (nick : String)
  | quitCall
deriving DecidableEq

/-- The structured result of `handleConnect` (identified by the `details`
error kind of the source). -/
inductive ConnectResult where
  | alreadyConnected (nick : String)
  | nicknameTooLong (nickname suggested : String)
  | connected (host : String) (port : Nat) (nick : String) (channels : List String)
  | connectError (msg : String)
deriving DecidableEq

/-- `(params.port as number) || 6667`: absent or 0 falls back to 6667. -/
def resolvePort (p : Option Nat) : Nat :=
  match p with
  | none => 6667
  | some q => if q = 0 then 6667 else q

def startsWithHash (ch : String) : Bool :=
  match ch.data with
  | [] => false
  | c :: _ => c == '#'

def normalizeChannel (ch : String) : String :=
  if startsWithHash ch then ch else "#" ++ ch

/-- `nick.substring(0, 8)`. -/
def strTake (s : String) (n : Nat) : String :=
  String.mk (s.data.take n)

/-- The guard of `handleConnect`: `ircClient && currentState?.connected`. -/
def connectedGuard (st : ExtState) : Bool :=
  st.ircClient &&
    (match st.currentState with
     | some s => s.connected
     | none => false)

/-- `handleConnect`, as a function of the state, the parameters and the
outcome of the registered/error/timeout race.  Returns the tool result,
the new module state, and the transport I/O trace in order. -/
def handleConnect (st : ExtState) (params : ConnectParams)
    (outcome : ConnectOutcome) :
    ConnectResult × ExtState × List IOEvent :=
  if connectedGuard st then
    (ConnectResult.alreadyConnected ((st.currentState.map IRCState.nick).getD ""),
      st, [])
  else
    let host := params.host
    let port := resolvePort params.port
    let nick := params.nickname
    let channels := (params.channels.getD []).map normalizeChannel
    if nick.length > 8 then
      (ConnectResult.nicknameTooLong nick (strTake nick 8), st, [])
    else
      match outcome with
      | ConnectOutcome.registered =>
          (ConnectResult.connected host port nick channels,
            { ircClient := true,
              currentState := some
                { connected := true, host := host, port := port, nick := nick,
                  channels := channels, profileName := none } },
            [IOEvent.newClient, IOEvent.connectCall host port nick])
      | ConnectOutcome.socketError msg =>
          (ConnectResult.connectError ("Connection failed: " ++ msg),
            { ircClient := false, currentState := none },
            [IOEvent.newClient, IOEvent.connectCall host port nick, IOEvent.quitCall])
      | ConnectOutcome.timeout =>
          (ConnectResult.connectError "Connection timeout (10s)",
            { ircClient := false, currentState := none },
            [IOEvent.newClient, IOEvent.connectCall host port nick, IOEvent.quitCall])

-- ===========================================================================
-- Nick-change confirmation and close handlers
-- ===========================================================================

/-- The "nick" handler: apply the confirmation only when its old nick
equals the currently tracked nick. -/
def onNick (evNick evNewNick : String) (st : Option IRCState) : Option IRCState :=
  match st with
  | some s => if evNick = s.nick then some { s with nick := evNewNick } else some s
  | none => none

/-- The "close" handler: when a session exists, clear only `connected`. -/
def onClose (st : Option IRCState) : Option IRCState :=
  match st with
  | some s => some { s with connected := false }
  | none => none

-- ===========================================================================
-- Profile resolution (src/profiles.ts)
-- ===========================================================================

structure IRCServer where
  host : String
  port : Nat
  ssl : Option Bool
deriving DecidableEq

structure IRCProfile where
  server : String
  nick : String
  username : Option String
  realname : Option String
  channels : List String
  nickservPass : Option String
  autoConnect : Option Bool
  agentsFile : Option String
deriving DecidableEq

/-- Records (`Record<string, _>`) modelled as association lists. -/
structure IRCConfig where
  servers : List (String × IRCServer)
  profiles : List (String × IRCProfile)
deriving DecidableEq

/-- The observable result of `getResolvedProfile`: `null`, a thrown
error, or the resolved pair. -/
inductive ResolveResult where
  | notFound
  | thrown (msg : String)
  | resolved (profile : IRCProfile) (server : IRCServer)
deriving DecidableEq

def unknownServerMsg (profileName server : String) : String :=
  "Profile \"" ++ profileName ++ "\" references unknown server \"" ++ server ++ "\""

def getResolvedProfile (config : IRCConfig) (profileName : String) : ResolveResult :=
  match config.profiles.lookup profileName with
  | none => ResolveResult.notFound
  | some profile =>
      match config.servers.lookup profile.server with
      | none => ResolveResult.thrown (unknownServerMsg profileName profile.server)
      | some server => ResolveResult.resolved profile server

-- ===========================================================================
-- Theorems
-- ===========================================================================

theorem chatRun_extend (ourNick nick target : String) (events : List (Nat × String)) :
    ∀ (b : MessageBuffer) (prev : Nat),
      chainOK prev (prev + MESSAGE_BUFFER_DELAY_MS) events = true →
      chatRun ourNick nick target events (some (b, prev + MESSAGE_BUFFER_DELAY_MS)) =
        (flushBuffer ourNick { b with messages := b.messages ++ events.map Prod.snd }).toList := by
  induction events with
  | nil =>
    intro b prev _
    simp [chatRun]
  | cons e rest ih =>
    obtain ⟨t, m⟩ := e
    intro b prev h
    simp only [chainOK, Bool.and_eq_true, decide_eq_true_eq] at h
    obtain ⟨⟨hpt, htdl⟩, hrest⟩ := h
    simp only [chatRun]
    rw [if_neg (by omega)]
    simp only [recordMsg]
    rw [ih { b with messages := b.messages ++ [m] } t hrest]
    simp [List.append_assoc]

theorem flushBuffer_length_one (ourNick : String) (b : MessageBuffer)
    (hne : b.messages ≠ []) : (flushBuffer ourNick b).toList.length = 1 := by
  rw [flushBuffer]
  rw [if_neg hne]
  split <;> rfl

/-- C2: N message events recorded to the same debounce key, each arriving
strictly within the 1000 ms quiet interval of the previous one, produce
exactly one flush whose combined content is all N payloads in arrival
order joined with newlines; and each record call cancels the key's
pending timer and schedules a new one measured from that call. -/
theorem debounce_coalescing (ourNick nick target m0 : String) (t0 : Nat)
    (events : List (Nat × String))
    (hchain : chainOK t0 (t0 + MESSAGE_BUFFER_DELAY_MS) events = true) :
    chatRun ourNick nick target ((t0, m0) :: events) none =
      (flushBuffer ourNick
        { nick := nick, target := target,
          messages := m0 :: events.map Prod.snd }).toList ∧
    (chatRun ourNick nick target ((t0, m0) :: events) none).length = 1 ∧
    ∀ (now : Nat) (msg : String) (s : Option (MessageBuffer × Nat)),
      Option.map Prod.snd (recordMsg now nick target msg s) =
        some (now + MESSAGE_BUFFER_DELAY_MS) := by
  have h1 : chatRun ourNick nick target ((t0, m0) :: events) none =
      (flushBuffer ourNick
        { nick := nick, target := target,
          messages := m0 :: events.map Prod.snd }).toList := by
    simp only [chatRun, recordMsg]
    rw [chatRun_extend ourNick nick target events
      { nick := nick, target := target, messages := [m0] } t0 hchain]
    simp
  refine ⟨h1, ?_, ?_⟩
  · rw [h1]
    exact flushBuffer_length_one ourNick _ (by simp)
  · intro now msg s
    cases s <;> simp [recordMsg]

/-- C2 witness: two records 400 ms apart coalesce into one flush. -/
theorem debounce_coalescing_witness :
    chainOK 0 (0 + MESSAGE_BUFFER_DELAY_MS) [(400, "there")] = true ∧
    chatRun "pi" "alice" "#general" [(0, "hi"), (400, "there")] none =
      (flushBuffer "pi"
        { nick := "alice", target := "#general",
          messages := "hi" :: ([((400 : Nat), "there")].map Prod.snd) }).toList ∧
    (chatRun "pi" "alice" "#general" [(0, "hi"), (400, "there")] none).length = 1 :=
  ⟨by decide,
   (debounce_coalescing "pi" "alice" "#general" "hi" 0 [(400, "there")] (by decide)).1,
   (debounce_coalescing "pi" "alice" "#general" "hi" 0 [(400, "there")] (by decide)).2.1⟩

/-- C3: a flushed channel message (target not the own nick) is delivered
as context rendered "[channel] nick: text", with triggerTurn true iff the
combined text contains the literal substring "@" ++ currentNick
(case-sensitive plain substring containment, not word-boundary aware). -/
theorem channel_mention_policy (ourNick : String) (b : MessageBuffer)
    (hne : b.messages ≠ []) (hch : b.target ≠ ourNick) :
    flushBuffer ourNick b =
      some (Delivery.context "irc_channel_message"
        ("[" ++ b.target ++ "] " ++ b.nick ++ ": " ++ String.intercalate "\n" b.messages)
        (containsSubstr (String.intercalate "\n" b.messages) ("@" ++ ourNick))) ∧
    (containsSubstr (String.intercalate "\n" b.messages) ("@" ++ ourNick) = true ↔
      ContainsSubstring ("@" ++ ourNick).data (String.intercalate "\n" b.messages).data) := by
  refine ⟨?_, containsSubstr_iff _ _⟩
  rw [flushBuffer, if_neg hne, if_neg hch]

/-- C3 witness: a channel message with a mention. -/
theorem channel_mention_policy_witness :
    (["hello @pi"] : List String) ≠ [] ∧ "#general" ≠ "pi" ∧
    (flushBuffer "pi" { nick := "alice", target := "#general", messages := ["hello @pi"] } =
      some (Delivery.context "irc_channel_message"
        ("[" ++ "#general" ++ "] " ++ "alice" ++ ": " ++ String.intercalate "\n" ["hello @pi"])
        (containsSubstr (String.intercalate "\n" ["hello @pi"]) ("@" ++ "pi"))) ∧
    (containsSubstr (String.intercalate "\n" ["hello @pi"]) ("@" ++ "pi") = true ↔
      ContainsSubstring ("@" ++ "pi").data (String.intercalate "\n" ["hello @pi"]).data)) :=
  ⟨by decide, by decide,
    channel_mention_policy "pi"
      { nick := "alice", target := "#general", messages := ["hello @pi"] }
      (by decide) (by decide)⟩

/-- C4: a flushed chat unit whose target equals the session's own nick is
always steered, regardless of content, rendered "IRC DM from nick: text". -/
theorem dm_always_steers (ourNick : String) (b : MessageBuffer)
    (hne : b.messages ≠ []) (hdm : b.target = ourNick) :
    flushBuffer ourNick b =
      some (Delivery.steer ("IRC DM from " ++ b.nick ++ ": " ++
        String.intercalate "\n" b.messages)) := by
  rw [flushBuffer, if_neg hne, if_pos hdm]

/-- C4 witness: a DM is steered. -/
theorem dm_always_steers_witness :
    (["ship it"] : List String) ≠ [] ∧ ("pi" : String) = "pi" ∧
    flushBuffer "pi" { nick := "bob", target := "pi", messages := ["ship it"] } =
      some (Delivery.steer ("IRC DM from " ++ "bob" ++ ": " ++
        String.intercalate "\n" ["ship it"])) :=
  ⟨by decide, rfl,
    dm_always_steers "pi" { nick := "bob", target := "pi", messages := ["ship it"] }
      (by decide) rfl⟩

/-- C1 (amended): a second connect while the state is Connected — the
singleton client exists and the tracked session's connected flag is true —
returns AlreadyConnected, leaves the state unchanged and performs no
transport I/O.  (While merely Connecting the guard does not fire; see the
counterexample.) -/
theorem connect_rejected_when_connected (st : ExtState) (p : ConnectParams)
    (o : ConnectOutcome) (s : IRCState)
    (hcs : st.currentState = some s) (hconn : s.connected = true)
    (hcl : st.ircClient = true) :
    handleConnect st p o = (ConnectResult.alreadyConnected s.nick, st, []) := by
  have hg : connectedGuard st = true := by
    simp [connectedGuard, hcs, hcl, hconn]
  rw [handleConnect]
  rw [if_pos (by rw [hg])]
  rw [hcs]
  rfl

/-- C1 witness: a connect while Connected is rejected with no I/O. -/
theorem connect_rejected_when_connected_witness :
    ({ ircClient := true,
       currentState := some
         { connected := true, host := "irc.libera.chat", port := 6667,
           nick := "alice", channels := ["#dev"], profileName := none } } :
        ExtState).currentState =
      some { connected := true, host := "irc.libera.chat", port := 6667,
             nick := "alice", channels := ["#dev"], profileName := none } ∧
    ({ connected := true, host := "irc.libera.chat", port := 6667,
       nick := "alice", channels := ["#dev"], profileName := none } : IRCState).connected = true ∧
    ({ ircClient := true,
       currentState := some
         { connected := true, host := "irc.libera.chat", port := 6667,
           nick := "alice", channels := ["#dev"], profileName := none } } :
        ExtState).ircClient = true ∧
    handleConnect
        { ircClient := true,
          currentState := some
            { connected := true, host := "irc.libera.chat", port := 6667,
              nick := "alice", channels := ["#dev"], profileName := none } }
        { host := "irc.libera.chat", port := none, nickname := "bob", channels := none }
        ConnectOutcome.registered =
      (ConnectResult.alreadyConnected "alice",
        { ircClient := true,
          currentState := some
            { connected := true, host := "irc.libera.chat", port := 6667,
              nick := "alice", channels := ["#dev"], profileName := none } },
        []) :=
  ⟨rfl, rfl, rfl,
    connect_rejected_when_connected
      { ircClient := true,
        currentState := some
          { connected := true, host := "irc.libera.chat", port := 6667,
            nick := "alice", channels := ["#dev"], profileName := none } }
      { host := "irc.libera.chat", port := none, nickname := "bob", channels := none }
      ConnectOutcome.registered
      { connected := true, host := "irc.libera.chat", port := 6667,
        nick := "alice", channels := ["#dev"], profileName := none }
      rfl rfl rfl⟩

/-- C1 counterexample: with the session Connecting (client present,
connected still false), a second connect is not rejected: it returns a
fresh connected result and performs transport I/O (a new client and a
connect call), contradicting the claim for the Connecting state. -/
theorem connect_while_connecting_cex :
    handleConnect
        { ircClient := true,
          currentState := some
            { connected := false, host := "irc.libera.chat", port := 6667,
              nick := "alice", channels := [], profileName := none } }
        { host := "irc.libera.chat", port := none, nickname := "bob", channels := none }
        ConnectOutcome.registered =
      (ConnectResult.connected "irc.libera.chat" 6667 "bob" [],
        { ircClient := true,
          currentState := some
            { connected := true, host := "irc.libera.chat", port := 6667,
              nick := "bob", channels := [], profileName := none } },
        [IOEvent.newClient, IOEvent.connectCall "irc.libera.chat" 6667 "bob"]) ∧
    [IOEvent.newClient, IOEvent.connectCall "irc.libera.chat" 6667 "bob"] ≠
      ([] : List IOEvent) := by
  constructor
  · rfl
  · decide

/-- C5 (amended): when no connection is already Connected (the
already-connected guard does not fire), a connect whose nickname exceeds
8 characters fails with NicknameTooLong carrying the original nickname
and a suggested value equal to its first 8 characters, with the state
unchanged and no transport I/O. -/
theorem nickname_too_long_rejected (st : ExtState) (p : ConnectParams)
    (o : ConnectOutcome) (hg : connectedGuard st = false)
    (hlen : 8 < p.nickname.length) :
    handleConnect st p o =
      (ConnectResult.nicknameTooLong p.nickname (strTake p.nickname 8), st, []) ∧
    (strTake p.nickname 8).data = p.nickname.data.take 8 := by
  constructor
  · rw [handleConnect]
    rw [if_neg (by rw [hg]; exact Bool.false_ne_true)]
    simp only []
    rw [if_pos hlen]
  · rfl

/-- C5 witness: a 9-character nickname is rejected before any I/O. -/
theorem nickname_too_long_rejected_witness :
    connectedGuard { ircClient := false, currentState := none } = false ∧
    8 < ("ninechars" : String).length ∧
    (handleConnect { ircClient := false, currentState := none }
        { host := "irc.libera.chat", port := none, nickname := "ninechars", channels := none }
        ConnectOutcome.registered =
      (ConnectResult.nicknameTooLong "ninechars" (strTake "ninechars" 8),
        { ircClient := false, currentState := none }, []) ∧
    (strTake "ninechars" 8).data = ("ninechars" : String).data.take 8) :=
  ⟨rfl, by decide,
    nickname_too_long_rejected { ircClient := false, currentState := none }
      { host := "irc.libera.chat", port := none, nickname := "ninechars", channels := none }
      ConnectOutcome.registered rfl (by decide)⟩

/-- C5 counterexample: a connect call with a 12-character nickname made
while Connected fails with AlreadyConnected, not NicknameTooLong — the
claim does not hold for every connect call with an over-long nickname. -/
theorem nickname_too_long_cex :
    (handleConnect
        { ircClient := true,
          currentState := some
            { connected := true, host := "irc.libera.chat", port := 6667,
              nick := "alice", channels := [], profileName := none } }
        { host := "irc.libera.chat", port := none, nickname := "verylongnick", channels := none }
        ConnectOutcome.registered).1 =
      ConnectResult.alreadyConnected "alice" ∧
    (handleConnect
        { ircClient := true,
          currentState := some
            { connected := true, host := "irc.libera.chat", port := 6667,
              nick := "alice", channels := [], profileName := none } }
        { host := "irc.libera.chat", port := none, nickname := "verylongnick", channels := none }
        ConnectOutcome.registered).1 ≠
      ConnectResult.nicknameTooLong "verylongnick" (strTake "verylongnick" 8) := by
  constructor
  · rfl
  · decide

/-- C6: after a connect attempt ends in a transport error or the
connection timeout, the transport is destroyed and the session context
discarded — the state is back to Idle — the surfaced result is a connect
error, and a subsequent connect with valid parameters succeeds. -/
theorem rollback_on_failure (st : ExtState) (p p2 : ConnectParams)
    (o : ConnectOutcome) (msg : String)
    (hg : connectedGuard st = false) (hlen : p.nickname.length ≤ 8)
    (ho : o = ConnectOutcome.socketError msg ∨ o = ConnectOutcome.timeout)
    (hlen2 : p2.nickname.length ≤ 8) :
    (handleConnect st p o).2.1 = { ircClient := false, currentState := none } ∧
    (∃ m, (handleConnect st p o).1 = ConnectResult.connectError m) ∧
    connectedGuard { ircClient := false, currentState := none } = false ∧
    (handleConnect { ircClient := false, currentState := none } p2
        ConnectOutcome.registered).1 =
      ConnectResult.connected p2.host (resolvePort p2.port) p2.nickname
        ((p2.channels.getD []).map normalizeChannel) := by
  have hnot : ¬ (8 < p.nickname.length) := by omega
  have hnot2 : ¬ (8 < p2.nickname.length) := by omega
  refine ⟨?_, ?_, rfl, ?_⟩
  · rcases ho with rfl | rfl <;> simp [handleConnect, hg, hnot]
  · rcases ho with rfl | rfl
    · exact ⟨"Connection failed: " ++ msg, by simp [handleConnect, hg, hnot]⟩
    · exact ⟨"Connection timeout (10s)", by simp [handleConnect, hg, hnot]⟩
  · simp [handleConnect, connectedGuard, hnot2]

/-- C6 witness: a timed-out connect rolls back, and a fresh connect then
succeeds. -/
theorem rollback_on_failure_witness :
    connectedGuard { ircClient := false, currentState := none } = false ∧
    ("alice" : String).length ≤ 8 ∧
    (ConnectOutcome.timeout = ConnectOutcome.socketError "boom" ∨
      ConnectOutcome.timeout = ConnectOutcome.timeout) ∧
    ("bob" : String).length ≤ 8 ∧
    (handleConnect { ircClient := false, currentState := none }
        { host := "irc.libera.chat", port := none, nickname := "alice", channels := none }
        ConnectOutcome.timeout).2.1 = { ircClient := false, currentState := none } ∧
    (handleConnect { ircClient := false, currentState := none }
        { host := "irc.oftc.net", port := none, nickname := "bob", channels := none }
        ConnectOutcome.registered).1 =
      ConnectResult.connected "irc.oftc.net" (resolvePort none) "bob"
        (((none : Option (List String)).getD []).map normalizeChannel) :=
  ⟨rfl, by decide, Or.inr rfl, by decide,
    (rollback_on_failure { ircClient := false, currentState := none }
      { host := "irc.libera.chat", port := none, nickname := "alice", channels := none }
      { host := "irc.oftc.net", port := none, nickname := "bob", channels := none }
      ConnectOutcome.timeout "boom" rfl (by decide) (Or.inr rfl) (by decide)).1,
    (rollback_on_failure { ircClient := false, currentState := none }
      { host := "irc.libera.chat", port := none, nickname := "alice", channels := none }
      { host := "irc.oftc.net", port := none, nickname := "bob", channels := none }
      ConnectOutcome.timeout "boom" rfl (by decide) (Or.inr rfl) (by decide)).2.2.2⟩

/-- C7: recording under one debounce key never touches another key's
buffer or timer, and flushing one key never touches another key's entry —
for the chat map and for the membership map alike. -/
theorem debounce_isolation
    (now : Nat) (nick target msg ourNick line chan k1 k2 : String)
    (m : String → Option (MessageBuffer × Nat))
    (em : String → Option (EventBuffer × Nat))
    (hck : chatKey target nick ≠ k2) (hek : chan ≠ k2) (hfk : k1 ≠ k2) :
    recordChatMap now nick target msg m k2 = m k2 ∧
    (flushChatMap ourNick k1 m).2 k2 = m k2 ∧
    recordEventMap now chan line em k2 = em k2 ∧
    (flushEventMap k1 em).2 k2 = em k2 := by
  refine ⟨?_, ?_, ?_, ?_⟩
  · simp only [recordChatMap]
    rw [if_neg (Ne.symm hck)]
  · simp only [flushChatMap]
    cases hmk : m k1 with
    | none => rfl
    | some bd =>
      obtain ⟨b, dl⟩ := bd
      by_cases hb : b.messages = []
      · simp [hb]
      · simp only [hb, if_neg]
        simp [hb, Ne.symm hfk]
  · simp only [recordEventMap]
    rw [if_neg (Ne.symm hek)]
  · simp only [flushEventMap]
    cases hek2 : em k1 with
    | none => rfl
    | some bd =>
      obtain ⟨b, dl⟩ := bd
      by_cases hb : b.events = []
      · simp [hb]
      · simp [hb, Ne.symm hfk]

/-- C7 witness: operations on one key leave a distinct key's entry as it
was, in both maps. -/
theorem debounce_isolation_witness :
    chatKey "#general" "alice" ≠ "#dev:bob" ∧ ("#ops" : String) ≠ "#dev:bob" ∧
    ("#general:alice" : String) ≠ "#dev:bob" ∧
    (recordChatMap 0 "alice" "#general" "hi" (fun _ => none) "#dev:bob" =
        (fun _ => none : String → Option (MessageBuffer × Nat)) "#dev:bob" ∧
    (flushChatMap "pi" "#general:alice" (fun _ => none)).2 "#dev:bob" =
        (fun _ => none : String → Option (MessageBuffer × Nat)) "#dev:bob" ∧
    recordEventMap 0 "#ops" "carol joined #ops" (fun _ => none) "#dev:bob" =
        (fun _ => none : String → Option (EventBuffer × Nat)) "#dev:bob" ∧
    (flushEventMap "#general:alice" (fun _ => none)).2 "#dev:bob" =
        (fun _ => none : String → Option (EventBuffer × Nat)) "#dev:bob") :=
  ⟨by decide, by decide, by decide,
    debounce_isolation 0 "alice" "#general" "hi" "pi" "carol joined #ops" "#ops"
      "#general:alice" "#dev:bob" (fun _ => none) (fun _ => none)
      (by decide) (by decide) (by decide)⟩

/-- C8: a nick-change confirmation updates the tracked nick exactly when
its old nick equals the currently tracked nick; a confirmation for a
different old nick leaves the session unchanged. -/
theorem nick_confirmation (evNick evNewNick : String) (s : IRCState) :
    (evNick = s.nick →
      onNick evNick evNewNick (some s) = some { s with nick := evNewNick }) ∧
    (evNick ≠ s.nick → onNick evNick evNewNick (some s) = some s) := by
  constructor
  · intro h
    simp [onNick, h]
  · intro h
    simp [onNick, h]

/-- C8 witness: a matching confirmation applies; a stale one is ignored. -/
theorem nick_confirmation_witness :
    onNick "alice" "bob"
        (some { connected := true, host := "irc.libera.chat", port := 6667,
                nick := "alice", channels := [], profileName := none }) =
      some { connected := true, host := "irc.libera.chat", port := 6667,
             nick := "bob", channels := [], profileName := none } ∧
    onNick "carol" "dave"
        (some { connected := true, host := "irc.libera.chat", port := 6667,
                nick := "alice", channels := [], profileName := none }) =
      some { connected := true, host := "irc.libera.chat", port := 6667,
             nick := "alice", channels := [], profileName := none } :=
  ⟨(nick_confirmation "alice" "bob"
      { connected := true, host := "irc.libera.chat", port := 6667,
        nick := "alice", channels := [], profileName := none }).1 rfl,
   (nick_confirmation "carol" "dave"
      { connected := true, host := "irc.libera.chat", port := 6667,
        nick := "alice", channels := [], profileName := none }).2 (by decide)⟩

/-- C9: profile resolution returns NotFound exactly when the profile is
absent; when the profile exists but its server reference has no entry it
throws a distinct error whose message contains the unknown server's name;
and a resolved result always carries exactly the looked-up profile and the
server its reference names — never a substituted default. -/
theorem profile_resolution (cfg : IRCConfig) (name : String) :
    (cfg.profiles.lookup name = none →
      getResolvedProfile cfg name = ResolveResult.notFound) ∧
    (∀ p, cfg.profiles.lookup name = some p →
      cfg.servers.lookup p.server = none →
      getResolvedProfile cfg name = ResolveResult.thrown (unknownServerMsg name p.server) ∧
      ContainsSubstring p.server.data (unknownServerMsg name p.server).data) ∧
    (∀ p s, getResolvedProfile cfg name = ResolveResult.resolved p s →
      cfg.profiles.lookup name = some p ∧ cfg.servers.lookup p.server = some s) := by
  refine ⟨?_, ?_, ?_⟩
  · intro h
    simp [getResolvedProfile, h]
  · intro p hp hs
    constructor
    · simp [getResolvedProfile, hp, hs]
    · refine ⟨("Profile \"" ++ name ++ "\" references unknown server \"").data,
        ("\"" : String).data, ?_⟩
      simp [unknownServerMsg, String.data_append, List.append_assoc]
  · intro p s h
    unfold getResolvedProfile at h
    cases hp : cfg.profiles.lookup name with
    | none =>
      rw [hp] at h
      simp at h
    | some q =>
      rw [hp] at h
      have h2 : (match cfg.servers.lookup q.server with
          | none => ResolveResult.thrown (unknownServerMsg name q.server)
          | some server => ResolveResult.resolved q server) =
          ResolveResult.resolved p s := h
      cases hs : cfg.servers.lookup q.server with
      | none =>
        rw [hs] at h2
        simp at h2
      | some srv =>
        rw [hs] at h2
        simp only [ResolveResult.resolved.injEq] at h2
        obtain ⟨rfl, rfl⟩ := h2
        exact ⟨rfl, hs⟩

/-- C9 witness: an absent profile resolves to NotFound; a profile whose
server reference is dangling throws an error containing the server name. -/
theorem profile_resolution_witness :
    getResolvedProfile { servers := [], profiles := [] } "work" = ResolveResult.notFound ∧
    getResolvedProfile
        { servers := [],
          profiles := [("work",
            { server := "rocky", nick := "pi", username := none, realname := none,
              channels := [], nickservPass := none, autoConnect := none,
              agentsFile := none })] } "work" =
      ResolveResult.thrown (unknownServerMsg "work" "rocky") ∧
    ContainsSubstring ("rocky" : String).data (unknownServerMsg "work" "rocky").data :=
  ⟨(profile_resolution { servers := [], profiles := [] } "work").1 rfl,
   ((profile_resolution
      { servers := [],
        profiles := [("work",
          { server := "rocky", nick := "pi", username := none, realname := none,
            channels := [], nickservPass := none, autoConnect := none,
            agentsFile := none })] } "work").2.1
      { server := "rocky", nick := "pi", username := none, realname := none,
        channels := [], nickservPass := none, autoConnect := none,
        agentsFile := none } rfl rfl).1,
   ((profile_resolution
      { servers := [],
        profiles := [("work",
          { server := "rocky", nick := "pi", username := none, realname := none,
            channels := [], nickservPass := none, autoConnect := none,
            agentsFile := none })] } "work").2.1
      { server := "rocky", nick := "pi", username := none, realname := none,
        channels := [], nickservPass := none, autoConnect := none,
        agentsFile := none } rfl rfl).2⟩

/-- C10: a close event on an existing session context only clears the
connected flag: host, port, nick, channels and profileName are unchanged
and the context itself is retained. -/
theorem close_preserves_session (s : IRCState) :
    onClose (some s) =
      some { connected := false, host := s.host, port := s.port, nick := s.nick,
             channels := s.channels, profileName := s.profileName } :=
  rfl
